import Mathlib

/-!
# Verification of the FinWise tax / finance calculation engine

Shallow embedding of the arithmetic core of the repository
(`src/utils/tax_utils.py`, `src/finwise/utils/finance_utils.py`,
`src/config.py`) and proofs about it.

Modelling conventions:
* Python `float` values are modelled as exact rationals (`ℚ`); the claims
  are about the ideal arithmetic the formulas denote.
* `float('inf')` slab limits are modelled as `Option ℚ` with `none` for
  infinity.
* Database query results (income rows, deduction rows, loans, insurance,
  expenses) are passed to the embedded functions as explicit lists /
  numbers, since the Python functions only consume the queried rows.
* A Python division that can raise `ZeroDivisionError` is embedded as an
  `Option`-returning computation (`none` = the exception).
* A comparison `z > c` where `z = (x - avg) / sqrt v` (float square root)
  with `v > 0` and `c > 0` is embedded by its exact rational
  characterisation `0 < x - avg ∧ c^2 * v < (x - avg)^2`.
-/

namespace FinWise

/-! ## Slab tables from `src/config.py` -/

/-- One tax slab: a cumulative upper `limit` (`none` models `float('inf')`)
and a marginal `rate`. -/
structure Slab where
  limit : Option ℚ
  rate : ℚ
deriving DecidableEq, Repr

def OLD_REGIME_SLABS : List Slab :=
  [⟨some 250000, 0⟩, ⟨some 500000, 5/100⟩, ⟨some 750000, 10/100⟩,
   ⟨some 1000000, 15/100⟩, ⟨some 1250000, 20/100⟩, ⟨some 1500000, 25/100⟩,
   ⟨none, 30/100⟩]

def NEW_REGIME_SLABS : List Slab :=
  [⟨some 300000, 0⟩, ⟨some 600000, 5/100⟩, ⟨some 900000, 10/100⟩,
   ⟨some 1200000, 15/100⟩, ⟨some 1500000, 20/100⟩, ⟨none, 30/100⟩]

def SURCHARGE_SLABS : List Slab :=
  [⟨some 5000000, 0⟩, ⟨some 10000000, 10/100⟩, ⟨some 20000000, 15/100⟩,
   ⟨some 50000000, 25/100⟩, ⟨none, 37/100⟩]

def CESS_RATE : ℚ := 4/100

def STANDARD_DEDUCTION : ℚ := 50000

/-- Python `min(limit, x)` where the limit may be `float('inf')`. -/
def minLimit : Option ℚ → ℚ → ℚ
  | none, x => x
  | some l, x => min l x

/-- Python `x <= limit` where the limit may be `float('inf')`. -/
def leLimit (x : ℚ) : Option ℚ → Bool
  | none => true
  | some l => x ≤ l

/-! ## Slab tax loop (`calculate_tax_old_regime` / `calculate_tax_new_regime`,
`src/utils/tax_utils.py` lines 187-215)

The Python loop is

    for slab in SLABS:
        if remaining_income <= 0: break
        income_in_slab = min(slab["limit"], remaining_income)
                         - (0 if first slab else previous slab's limit)
        tax += income_in_slab * slab["rate"]
        remaining_income -= income_in_slab

`slabTaxLoop slabs prev remaining tax` runs that loop with `prev` the
previous slab's limit (`0` before the first slab). -/

def slabTaxLoop : List Slab → ℚ → ℚ → ℚ → ℚ
  | [], _, _, tax => tax
  | s :: rest, prev, remaining, tax =>
    if remaining ≤ 0 then tax
    else
      let income_in_slab := minLimit s.limit remaining - prev
      slabTaxLoop rest (s.limit.getD 0) (remaining - income_in_slab)
        (tax + income_in_slab * s.rate)

/-- Embedding of `calculate_tax_old_regime` from `src/utils/tax_utils.py`. -/
def calculate_tax_old_regime (taxable_income : ℚ) : ℚ :=
  slabTaxLoop OLD_REGIME_SLABS 0 taxable_income 0

/-- Embedding of `calculate_tax_new_regime` from `src/utils/tax_utils.py`. -/
def calculate_tax_new_regime (taxable_income : ℚ) : ℚ :=
  slabTaxLoop NEW_REGIME_SLABS 0 taxable_income 0

/-! ## Specification-side progressive slab tax

Written from the spec's words ("the sum over the regime's slabs of the
portion of taxable income falling within that slab's band times that
slab's rate, with bands delimited by the cumulative limits"), to be
compared with the functions embedded from the source. -/

/-- Portion of income `t` falling in the band `(lo, hi]`. -/
def bandPortion (t lo hi : ℚ) : ℚ := max 0 (min t hi - lo)

/-- Progressive slab tax for the old-regime slab table, per the spec. -/
def specTaxOld (t : ℚ) : ℚ :=
  bandPortion t 0 250000 * 0 + bandPortion t 250000 500000 * (5/100) +
  bandPortion t 500000 750000 * (10/100) + bandPortion t 750000 1000000 * (15/100) +
  bandPortion t 1000000 1250000 * (20/100) + bandPortion t 1250000 1500000 * (25/100) +
  max 0 (t - 1500000) * (30/100)

/-- Progressive slab tax for the new-regime slab table, per the spec. -/
def specTaxNew (t : ℚ) : ℚ :=
  bandPortion t 0 300000 * 0 + bandPortion t 300000 600000 * (5/100) +
  bandPortion t 600000 900000 * (10/100) + bandPortion t 900000 1200000 * (15/100) +
  bandPortion t 1200000 1500000 * (20/100) + max 0 (t - 1500000) * (30/100)

/-! ## HRA exemption (`calculate_hra_exemption`, `src/utils/tax_utils.py`) -/

/-- Embedding of `calculate_hra_exemption` from `src/utils/tax_utils.py`: minimum of the
HRA received, rent in excess of 10% of basic (floored at 0), and 50% (metro)
or 40% (non-metro) of basic salary. -/
def calculate_hra_exemption (basic_salary hra_received rent_paid : ℚ)
    (is_metro : Bool) : ℚ :=
  let exemption_1 := hra_received
  let exemption_2 := max 0 (rent_paid - (1/10) * basic_salary)
  let exemption_3 := basic_salary * (if is_metro then 1/2 else 2/5)
  min exemption_1 (min exemption_2 exemption_3)

/-! ## Savings rate (`calculate_savings_rate`,
`src/finwise/utils/finance_utils.py` lines 107-118)

The monthly income and expenses are database aggregates; they are the
function's inputs here. -/

/-- Embedding of `calculate_savings_rate` from `src/finwise/utils/finance_utils.py`:
returns `0` when income is `0`, otherwise `max 0 ((income - expenses) /
income * 100)`. -/
def calculate_savings_rate (income expenses : ℚ) : ℚ :=
  if income = 0 then 0
  else max 0 ((income - expenses) / income * 100)

/-! ## Surcharge and cess (`src/utils/tax_utils.py` lines 217-230) -/

/-- The loop of `calculate_surcharge`: find the first slab whose limit the
taxable income does not exceed, and return `tax_amount * rate` for it
(`0` if no slab matches, as the Python variable is initialised to `0.0`). -/
def surchargeLoop : List Slab → ℚ → ℚ → ℚ
  | [], _, _ => 0
  | s :: rest, tax_amount, taxable_income =>
    if leLimit taxable_income s.limit then tax_amount * s.rate
    else surchargeLoop rest tax_amount taxable_income

/-- Embedding of `calculate_surcharge` from `src/utils/tax_utils.py`. -/
def calculate_surcharge (tax_amount taxable_income : ℚ) : ℚ :=
  surchargeLoop SURCHARGE_SLABS tax_amount taxable_income

/-- Embedding of `calculate_cess` from `src/utils/tax_utils.py`. -/
def calculate_cess (tax_amount surcharge : ℚ) : ℚ :=
  (tax_amount + surcharge) * CESS_RATE

/-! ## Tax deductions (`get_tax_deductions`, `src/utils/tax_utils.py`
lines 81-169)

The function consumes three database result sets: the user's
`TaxDeduction` rows for the financial year, the tax-deductible home-loan
`Debt` rows overlapping the year, and the tax-deductible health `Insurance`
rows overlapping the year.  These result sets are the inputs of the
embedding.  For a home loan, the Python code derives the number of active
months from the loan's dates with `count_months_active`; that count is
carried here as the input field `months_active`. -/

/-- The `TaxDeductionType` enum from `src/database/models.py`. -/
inductive TaxDeductionType where
  | SEC_80C | SEC_80D | SEC_80E | SEC_80EE | SEC_80G | SEC_80CCD
  | HRA | LTA | HOME_LOAN_INTEREST | OTHER
deriving DecidableEq, Repr

/-- A `TaxDeduction` row (the fields `get_tax_deductions` reads). -/
structure TaxDeductionRow where
  deduction_type : TaxDeductionType
  amount : ℚ
deriving DecidableEq, Repr

/-- A home-loan `Debt` row (the fields `get_tax_deductions` reads).
`emi_amount` and `interest_rate` are nullable columns tested with Python
truthiness.  `months_active` is `count_months_active` applied to the loan's
dates and the financial year. -/
structure HomeLoanRow where
  emi_amount : Option ℚ
  interest_rate : Option ℚ
  remaining_amount : ℚ
  months_active : ℕ
deriving DecidableEq, Repr

/-- A health `Insurance` row (the fields `get_tax_deductions` reads). -/
structure InsuranceRow where
  premium_frequency : String
  premium_amount : ℚ
deriving DecidableEq, Repr

/-- Python truthiness of a nullable float: `None` and `0` are falsy. -/
def truthy : Option ℚ → Bool
  | none => false
  | some x => x ≠ 0

/-- The deduction dictionary built by `get_tax_deductions`, with one field
per key. -/
structure DeductionDict where
  sec80C : ℚ
  sec80D : ℚ
  sec80E : ℚ
  sec80EE : ℚ
  sec80G : ℚ
  sec80CCD : ℚ
  hra : ℚ
  lta : ℚ
  homeLoanInterest : ℚ
  other : ℚ
  standardDeduction : ℚ
deriving DecidableEq, Repr

/-- Python `sum(deductions.values())` over the dictionary. -/
def DeductionDict.total (d : DeductionDict) : ℚ :=
  d.sec80C + d.sec80D + d.sec80E + d.sec80EE + d.sec80G + d.sec80CCD +
  d.hra + d.lta + d.homeLoanInterest + d.other + d.standardDeduction

/-- The per-row accumulation loop of `get_tax_deductions`. -/
def addDeduction (d : DeductionDict) (row : TaxDeductionRow) : DeductionDict :=
  match row.deduction_type with
  | .SEC_80C => { d with sec80C := d.sec80C + row.amount }
  | .SEC_80D => { d with sec80D := d.sec80D + row.amount }
  | .SEC_80E => { d with sec80E := d.sec80E + row.amount }
  | .SEC_80EE => { d with sec80EE := d.sec80EE + row.amount }
  | .SEC_80G => { d with sec80G := d.sec80G + row.amount }
  | .SEC_80CCD => { d with sec80CCD := d.sec80CCD + row.amount }
  | .HRA => { d with hra := d.hra + row.amount }
  | .LTA => { d with lta := d.lta + row.amount }
  | .HOME_LOAN_INTEREST =>
      { d with homeLoanInterest := d.homeLoanInterest + row.amount }
  | .OTHER => { d with other := d.other + row.amount }

/-- The home-loan interest accumulation loop of `get_tax_deductions`. -/
def addHomeLoan (d : DeductionDict) (loan : HomeLoanRow) : DeductionDict :=
  if truthy loan.emi_amount && truthy loan.interest_rate then
    let yearly_interest := loan.interest_rate.getD 0 / 100 * loan.remaining_amount
    let monthly_interest := yearly_interest / 12
    let interest_paid := monthly_interest * loan.months_active
    { d with homeLoanInterest := d.homeLoanInterest + interest_paid }
  else d

/-- The insurance premium accumulation loop of `get_tax_deductions`. -/
def addInsurance (d : DeductionDict) (ins : InsuranceRow) : DeductionDict :=
  if ins.premium_frequency = "annually" then
    { d with sec80D := d.sec80D + ins.premium_amount }
  else if ins.premium_frequency = "monthly" then
    { d with sec80D := d.sec80D + ins.premium_amount * 12 }
  else if ins.premium_frequency = "quarterly" then
    { d with sec80D := d.sec80D + ins.premium_amount * 4 }
  else d

/-- Embedding of `get_tax_deductions` from `src/utils/tax_utils.py`: accumulate the
deduction rows into the per-section dictionary (initialised to `0` except
`STANDARD_DEDUCTION`), cap the `80C` entry at 150000, then add home-loan
interest and health-insurance premiums. -/
def get_tax_deductions (rows : List TaxDeductionRow)
    (home_loans : List HomeLoanRow)
    (health_insurances : List InsuranceRow) : DeductionDict :=
  let d0 : DeductionDict := ⟨0, 0, 0, 0, 0, 0, 0, 0, 0, 0, STANDARD_DEDUCTION⟩
  let d1 := rows.foldl addDeduction d0
  let d2 := { d1 with sec80C := min d1.sec80C 150000 }
  let d3 := home_loans.foldl addHomeLoan d2
  health_insurances.foldl addInsurance d3

/-! ## Taxable income and total liability (`src/utils/tax_utils.py`
lines 171-276)

`calculate_tax_liability` obtains `gross_income` from
`calculate_total_income` and `deductions` from `get_tax_deductions` (both
database aggregates); they are the inputs of the embedding. -/

/-- Embedding of `calculate_taxable_income_old_regime` from `src/utils/tax_utils.py`. -/
def calculate_taxable_income_old_regime (gross_income : ℚ)
    (deductions : DeductionDict) : ℚ :=
  max 0 (gross_income - deductions.total)

/-- Embedding of `calculate_taxable_income_new_regime` from `src/utils/tax_utils.py`. -/
def calculate_taxable_income_new_regime (gross_income : ℚ) : ℚ :=
  max 0 (gross_income - STANDARD_DEDUCTION)

/-- The per-regime sub-dictionary returned by `calculate_tax_liability`. -/
structure RegimeResult where
  taxable_income : ℚ
  tax : ℚ
  surcharge : ℚ
  cess : ℚ
  total_tax : ℚ
deriving DecidableEq, Repr

/-- The dictionary returned by `calculate_tax_liability`. -/
structure TaxLiabilityResult where
  gross_income : ℚ
  old_regime : RegimeResult
  new_regime : RegimeResult
  better_regime : String
  tax_savings : ℚ
deriving DecidableEq, Repr

/-- Embedding of `calculate_tax_liability` from `src/utils/tax_utils.py`. -/
def calculate_tax_liability (gross_income : ℚ)
    (deductions : DeductionDict) : TaxLiabilityResult :=
  let taxable_income_old := calculate_taxable_income_old_regime gross_income deductions
  let tax_old := calculate_tax_old_regime taxable_income_old
  let surcharge_old := calculate_surcharge tax_old taxable_income_old
  let cess_old := calculate_cess tax_old surcharge_old
  let total_tax_old := tax_old + surcharge_old + cess_old
  let taxable_income_new := calculate_taxable_income_new_regime gross_income
  let tax_new := calculate_tax_new_regime taxable_income_new
  let surcharge_new := calculate_surcharge tax_new taxable_income_new
  let cess_new := calculate_cess tax_new surcharge_new
  let total_tax_new := tax_new + surcharge_new + cess_new
  let better_regime := if total_tax_old ≤ total_tax_new then "old" else "new"
  let savings := |total_tax_old - total_tax_new|
  { gross_income := gross_income
    old_regime := ⟨taxable_income_old, tax_old, surcharge_old, cess_old, total_tax_old⟩
    new_regime := ⟨taxable_income_new, tax_new, surcharge_new, cess_new, total_tax_new⟩
    better_regime := better_regime
    tax_savings := savings }

/-! ## Loan amortization (`calculate_loan_amortization`,
`src/finwise/utils/finance_utils.py` lines 531-564)

A Python division that can raise `ZeroDivisionError` is modelled by an
`Option`: the zero-rate branch divides by `tenure_months`, and the
positive-rate branch divides by `(1 + monthly_rate) ^ tenure_months - 1`. -/

/-- One row of the amortization schedule. -/
structure AmortEntry where
  month : ℕ
  emi : ℚ
  principal_payment : ℚ
  interest_payment : ℚ
  remaining_principal : ℚ
deriving DecidableEq, Repr

/-- The schedule loop of `calculate_loan_amortization`: after `k` months,
the schedule rows so far and the current (uncapped) remaining principal.
Each month pays `interest = remaining * monthly_rate` and
`principal_payment = emi - interest`; the stored `remaining_principal` is
floored at `0` ("Ensure no negative value due to rounding"). -/
def amortLoop (monthly_rate emi principal : ℚ) : ℕ → List AmortEntry × ℚ
  | 0 => ([], principal)
  | k + 1 =>
    let p := amortLoop monthly_rate emi principal k
    let interest_payment := p.2 * monthly_rate
    let principal_payment := emi - interest_payment
    let remaining := p.2 - principal_payment
    (p.1 ++ [⟨k + 1, emi, principal_payment, interest_payment, max 0 remaining⟩],
      remaining)

/-- The dictionary returned by `calculate_loan_amortization`. -/
structure LoanResult where
  loan_amount : ℚ
  interest_rate_annual : ℚ
  tenure_months : ℕ
  emi : ℚ
  total_payment : ℚ
  total_interest : ℚ
  amortization_schedule : List AmortEntry
deriving DecidableEq, Repr

/-- Embedding of `calculate_loan_amortization` from `src/finwise/utils/finance_utils.py`.
`none` models a `ZeroDivisionError` in the EMI computation. -/
def calculate_loan_amortization (principal rate : ℚ) (tenure_months : ℕ) :
    Option LoanResult :=
  let monthly_rate := rate / (12 * 100)
  let emi? : Option ℚ :=
    if monthly_rate = 0 then
      if tenure_months = 0 then none
      else some (principal / tenure_months)
    else if (1 + monthly_rate) ^ tenure_months - 1 = 0 then none
    else some (principal * monthly_rate * (1 + monthly_rate) ^ tenure_months /
      ((1 + monthly_rate) ^ tenure_months - 1))
  emi?.map fun emi =>
    { loan_amount := principal
      interest_rate_annual := rate
      tenure_months := tenure_months
      emi := emi
      total_payment := emi * tenure_months
      total_interest := emi * tenure_months - principal
      amortization_schedule := (amortLoop monthly_rate emi principal tenure_months).1 }

/-! ## SIP returns (`calculate_sip_returns`,
`src/finwise/utils/finance_utils.py` lines 566-588) -/

/-- The dictionary returned by `calculate_sip_returns`. -/
structure SipResult where
  monthly_investment : ℚ
  expected_return_rate : ℚ
  tenure_years : ℕ
  tenure_months : ℕ
  future_value : ℚ
  total_invested : ℚ
  wealth_gained : ℚ
  absolute_return_percent : ℚ
deriving DecidableEq, Repr

/-- The future-value expression of `calculate_sip_returns`, which divides
by the monthly rate with no guard; `none` models the `ZeroDivisionError`
raised when the monthly rate is zero. -/
def sipFutureValue (monthly_investment monthly_rate : ℚ) (tenure_months : ℕ) :
    Option ℚ :=
  if monthly_rate = 0 then none
  else some (monthly_investment *
    (((1 + monthly_rate) ^ tenure_months - 1) / monthly_rate) *
    (1 + monthly_rate))

/-- Embedding of `calculate_sip_returns` from `src/finwise/utils/finance_utils.py`.
`none` models a `ZeroDivisionError`: in `future_value` when the monthly
rate is zero, and in `absolute_return` when `total_invested` is zero. -/
def calculate_sip_returns (monthly_investment expected_return_rate : ℚ)
    (tenure_years : ℕ) : Option SipResult :=
  let monthly_rate := expected_return_rate / (12 * 100)
  let tenure_months := tenure_years * 12
  (sipFutureValue monthly_investment monthly_rate tenure_months).bind
    fun future_value =>
      let total_invested := monthly_investment * tenure_months
      let wealth_gained := future_value - total_invested
      if total_invested = 0 then none
      else some
        { monthly_investment := monthly_investment
          expected_return_rate := expected_return_rate
          tenure_years := tenure_years
          tenure_months := tenure_months
          future_value := future_value
          total_invested := total_invested
          wealth_gained := wealth_gained
          absolute_return_percent := wealth_gained / total_invested * 100 }

/-! ## Spending anomaly detection (`detect_spending_anomalies`,
`src/finwise/utils/finance_utils.py` lines 590-653)

The function consumes the user's expense rows of the last six months; each
row contributes its category, its month key `date.strftime("%Y-%m")` and
its amount, and the current month's key is `current_date.strftime("%Y-%m")`.
Those are the inputs of the embedding.  A Python dict built by iteration
is modelled by its insertion-ordered key list (`orderedKeys`) together
with per-key aggregation.  The float comparison `z_score > c` with
`z_score = (x - avg) / std_dev` and `std_dev = sqrt v` is embedded by its
exact characterisation for `c > 0`: `0 < v ∧ 0 < x - avg ∧
c^2 * v < (x - avg)^2` (and the code sets `z_score = 0` when the standard
deviation is not positive, so no anomaly is possible then). -/

/-- An expense row as read by `detect_spending_anomalies`. -/
structure ExpenseRow where
  category : String
  month_year : String
  amount : ℚ
deriving DecidableEq, Repr

/-- Insertion-ordered key list of a Python dict built by iterating a list
of keys: a key is appended the first time it appears. -/
def orderedKeys {α : Type} [DecidableEq α] (l : List α) : List α :=
  l.foldl (fun acc x => if x ∈ acc then acc else acc ++ [x]) []

/-- The keys of `category_month_expenses`, in insertion order. -/
def categories (rows : List ExpenseRow) : List String :=
  orderedKeys (rows.map (·.category))

/-- The keys of `category_month_expenses[cat]` (the distinct months with an
expense in category `cat`), in insertion order. -/
def monthsOf (rows : List ExpenseRow) (cat : String) : List String :=
  orderedKeys ((rows.filter (fun r => r.category = cat)).map (·.month_year))

/-- Python `category_month_expenses[cat][month]`: the summed amount of category
`cat` in month `month`. -/
def monthTotal (rows : List ExpenseRow) (cat month : String) : ℚ :=
  ((rows.filter (fun r => r.category = cat ∧ r.month_year = month)).map
    (·.amount)).sum

/-- Python `values = list(month_data.values())` for a category. -/
def categoryValues (rows : List ExpenseRow) (cat : String) : List ℚ :=
  (monthsOf rows cat).map (monthTotal rows cat)

/-- Python `avg = sum(values) / len(values)` for a category. -/
def categoryAvg (rows : List ExpenseRow) (cat : String) : ℚ :=
  (categoryValues rows cat).sum / (categoryValues rows cat).length

/-- The population variance `sum((x - avg)^2 for x in values) / len(values)`
for a category; the code's `std_dev` is its square root. -/
def categoryVar (rows : List ExpenseRow) (cat : String) : ℚ :=
  (((categoryValues rows cat).map
    (fun x => (x - categoryAvg rows cat) ^ 2)).sum) /
  (categoryValues rows cat).length

/-- Exact rational characterisation, for `c > 0`, of the code's float
comparison `z_score > c` where `z_score = (x - avg) / sqrt v` when
`sqrt v > 0` and `z_score = 0` otherwise. -/
def zScoreGT (x avg v c : ℚ) : Prop :=
  0 < v ∧ 0 < x - avg ∧ c ^ 2 * v < (x - avg) ^ 2

instance (x avg v c : ℚ) : Decidable (zScoreGT x avg v c) :=
  inferInstanceAs (Decidable (_ ∧ _ ∧ _))

/-- An entry of the list returned by `detect_spending_anomalies`. -/
structure Anomaly where
  category : String
  month : String
  amount : ℚ
  average : ℚ
  percent_increase : ℚ
  severity : String
deriving DecidableEq, Repr

/-- Embedding of `detect_spending_anomalies` from `src/finwise/utils/finance_utils.py`:
for each expense category with at least 3 months of data, flag the current
month when its total exceeds the category mean by more than 2 population
standard deviations; severity is `"high"` when the z-score exceeds 3 and
`"medium"` otherwise. -/
def detect_spending_anomalies (rows : List ExpenseRow)
    (current_month : String) : List Anomaly :=
  (categories rows).filterMap fun category =>
    let month_keys := monthsOf rows category
    if month_keys.length < 3 then none
    else
      let avg := categoryAvg rows category
      let std_sq := categoryVar rows category
      if current_month ∈ month_keys then
        let current_month_expense := monthTotal rows category current_month
        if zScoreGT current_month_expense avg std_sq 2 then
          some
            { category := category
              month := current_month
              amount := current_month_expense
              average := avg
              percent_increase := (current_month_expense - avg) / avg * 100
              severity :=
                if zScoreGT current_month_expense avg std_sq 3 then "high"
                else "medium" }
        else none
      else none

/-- Six months of "Food" expenses: five months at 100 and 400 in
"2025-06"; used to witness the anomaly-detection claim. -/
def sampleExpenses : List ExpenseRow :=
  [⟨"Food", "2025-01", 100⟩, ⟨"Food", "2025-02", 100⟩,
   ⟨"Food", "2025-03", 100⟩, ⟨"Food", "2025-04", 100⟩,
   ⟨"Food", "2025-05", 100⟩, ⟨"Food", "2025-06", 400⟩]

end FinWise

namespace FinWise

/-! ## Claim C1: the slab loop versus the progressive tax -/

/-- C1 (code bug): `calculate_tax_old_regime` / `calculate_tax_new_regime`
do not compute the slab-based progressive tax.  The loop subtracts the
previous cumulative limit from `min(limit, remaining_income)` while
`remaining_income` has already been decremented, so in-slab amounts go
negative: old-regime tax of 500000 evaluates to −250000 where the
progressive schedule gives 12500, and new-regime tax of 600000 evaluates to
−225000 where the progressive schedule gives 15000. -/
theorem C1_slab_tax_bug :
    calculate_tax_old_regime 500000 = -250000 ∧ specTaxOld 500000 = 12500 ∧
    calculate_tax_new_regime 600000 = -225000 ∧ specTaxNew 600000 = 15000 := by
  refine ⟨?_, ?_, ?_, ?_⟩ <;>
    norm_num [calculate_tax_old_regime, calculate_tax_new_regime,
      OLD_REGIME_SLABS, NEW_REGIME_SLABS, slabTaxLoop, minLimit,
      specTaxOld, specTaxNew, bandPortion, min_def, max_def]

/-- C5 (code bug): the slab tax functions are neither monotone nor
non-negative: old-regime tax drops from 0 at income 250000 to −250000 at
income 500000, and new-regime tax drops from 0 at income 300000 to −225000
at income 600000. -/
theorem C5_slab_tax_not_monotone :
    calculate_tax_old_regime 250000 = 0 ∧
    calculate_tax_old_regime 500000 < 0 ∧
    ¬ calculate_tax_old_regime 250000 ≤ calculate_tax_old_regime 500000 ∧
    calculate_tax_new_regime 300000 = 0 ∧
    calculate_tax_new_regime 600000 < 0 ∧
    ¬ calculate_tax_new_regime 300000 ≤ calculate_tax_new_regime 600000 := by
  refine ⟨?_, ?_, ?_, ?_, ?_, ?_⟩ <;>
    norm_num [calculate_tax_old_regime, calculate_tax_new_regime,
      OLD_REGIME_SLABS, NEW_REGIME_SLABS, slabTaxLoop, minLimit,
      min_def, max_def]

/-! ## Claim C4: HRA exemption -/

/-- C4: for non-negative basic salary, HRA received and rent paid,
`calculate_hra_exemption` returns the minimum of the HRA received, the rent
in excess of 10% of basic salary floored at 0, and 50% (metro) or 40%
(non-metro) of basic salary; hence it is non-negative and at most the HRA
received. -/
theorem C4_hra_exemption (basic hra rent : ℚ) (is_metro : Bool)
    (hb : 0 ≤ basic) (hh : 0 ≤ hra) (_hr : 0 ≤ rent) :
    calculate_hra_exemption basic hra rent is_metro =
      min hra (min (max 0 (rent - (1/10) * basic))
        (basic * (if is_metro then 1/2 else 2/5))) ∧
    0 ≤ calculate_hra_exemption basic hra rent is_metro ∧
    calculate_hra_exemption basic hra rent is_metro ≤ hra := by
  refine ⟨rfl, ?_, min_le_left _ _⟩
  refine le_min hh (le_min (le_max_left _ _) (mul_nonneg hb ?_))
  cases is_metro <;> norm_num

/-- Witness for C4 at basic 600000, HRA 200000, rent 240000, metro. -/
theorem C4_hra_exemption_witness :
    calculate_hra_exemption 600000 200000 240000 true =
      min (200000 : ℚ) (min (max 0 (240000 - (1/10) * 600000))
        (600000 * (if true then 1/2 else 2/5))) ∧
    0 ≤ calculate_hra_exemption 600000 200000 240000 true ∧
    calculate_hra_exemption 600000 200000 240000 true ≤ 200000 :=
  C4_hra_exemption 600000 200000 240000 true (by norm_num) (by norm_num)
    (by norm_num)

/-! ## Claim C2: deduction caps -/

lemma addHomeLoan_sec80C (d : DeductionDict) (l : HomeLoanRow) :
    (addHomeLoan d l).sec80C = d.sec80C := by
  unfold addHomeLoan
  split_ifs <;> rfl

lemma addInsurance_sec80C (d : DeductionDict) (i : InsuranceRow) :
    (addInsurance d i).sec80C = d.sec80C := by
  unfold addInsurance
  split_ifs <;> rfl

lemma foldl_addHomeLoan_sec80C (loans : List HomeLoanRow) :
    ∀ d : DeductionDict, (loans.foldl addHomeLoan d).sec80C = d.sec80C := by
  induction loans with
  | nil => intro d; rfl
  | cons l ls ih =>
    intro d
    rw [List.foldl_cons, ih, addHomeLoan_sec80C]

lemma foldl_addInsurance_sec80C (inss : List InsuranceRow) :
    ∀ d : DeductionDict, (inss.foldl addInsurance d).sec80C = d.sec80C := by
  induction inss with
  | nil => intro d; rfl
  | cons i is ih =>
    intro d
    rw [List.foldl_cons, ih, addInsurance_sec80C]

/-- C2 counterexample: a single recorded 80D deduction of 30000 yields an
80D entry of 30000, exceeding the 25000 limit the claim asserts as a cap —
`get_tax_deductions` does not cap 80D (nor 80CCD nor HOME_LOAN_INTEREST). -/
theorem C2_80D_not_capped_counterexample :
    (get_tax_deductions [⟨TaxDeductionType.SEC_80D, 30000⟩] [] []).sec80D = 30000 ∧
    ¬ (get_tax_deductions [⟨TaxDeductionType.SEC_80D, 30000⟩] [] []).sec80D ≤ 25000 := by
  constructor <;>
    norm_num [get_tax_deductions, addDeduction]

/-- C2 (amended): `get_tax_deductions` caps only the 80C entry, at 150000;
the cap is applied before the home-loan and insurance additions, which only
touch the HOME_LOAN_INTEREST and 80D entries, so the returned 80C entry is
always at most 150000. -/
theorem C2_sec80C_capped (rows : List TaxDeductionRow)
    (home_loans : List HomeLoanRow)
    (health_insurances : List InsuranceRow) :
    (get_tax_deductions rows home_loans health_insurances).sec80C ≤ 150000 := by
  unfold get_tax_deductions
  rw [foldl_addInsurance_sec80C, foldl_addHomeLoan_sec80C]
  exact min_le_right _ _

/-! ## Claim C3: surcharge and cess layering -/

/-- C3: `calculate_surcharge` returns the tax amount times the rate of the
first surcharge slab whose limit is at least the taxable income (0 when the
taxable income is at most 5000000), `calculate_cess` returns 4% of
tax + surcharge, and in `calculate_tax_liability` each regime's `total_tax`
is `tax + surcharge + cess` with `tax`, `surcharge` and `cess` computed by
those functions from the regime's taxable income. -/
theorem C3_surcharge_cess_layering (tax_amount taxable_income g : ℚ)
    (d : DeductionDict) :
    (taxable_income ≤ 5000000 → calculate_surcharge tax_amount taxable_income = 0) ∧
    calculate_surcharge tax_amount taxable_income =
      tax_amount * (if taxable_income ≤ 5000000 then 0
        else if taxable_income ≤ 10000000 then 10/100
        else if taxable_income ≤ 20000000 then 15/100
        else if taxable_income ≤ 50000000 then 25/100
        else 37/100) ∧
    calculate_cess tax_amount (calculate_surcharge tax_amount taxable_income) =
      (tax_amount + calculate_surcharge tax_amount taxable_income) * (4/100) ∧
    ((calculate_tax_liability g d).old_regime.tax =
        calculate_tax_old_regime (calculate_tax_liability g d).old_regime.taxable_income ∧
      (calculate_tax_liability g d).old_regime.surcharge =
        calculate_surcharge (calculate_tax_liability g d).old_regime.tax
          (calculate_tax_liability g d).old_regime.taxable_income ∧
      (calculate_tax_liability g d).old_regime.cess =
        calculate_cess (calculate_tax_liability g d).old_regime.tax
          (calculate_tax_liability g d).old_regime.surcharge ∧
      (calculate_tax_liability g d).old_regime.total_tax =
        (calculate_tax_liability g d).old_regime.tax +
        (calculate_tax_liability g d).old_regime.surcharge +
        (calculate_tax_liability g d).old_regime.cess) ∧
    ((calculate_tax_liability g d).new_regime.tax =
        calculate_tax_new_regime (calculate_tax_liability g d).new_regime.taxable_income ∧
      (calculate_tax_liability g d).new_regime.surcharge =
        calculate_surcharge (calculate_tax_liability g d).new_regime.tax
          (calculate_tax_liability g d).new_regime.taxable_income ∧
      (calculate_tax_liability g d).new_regime.cess =
        calculate_cess (calculate_tax_liability g d).new_regime.tax
          (calculate_tax_liability g d).new_regime.surcharge ∧
      (calculate_tax_liability g d).new_regime.total_tax =
        (calculate_tax_liability g d).new_regime.tax +
        (calculate_tax_liability g d).new_regime.surcharge +
        (calculate_tax_liability g d).new_regime.cess) := by
  refine ⟨?_, ?_, rfl, ⟨rfl, rfl, rfl, rfl⟩, ⟨rfl, rfl, rfl, rfl⟩⟩
  · intro h
    simp only [calculate_surcharge, SURCHARGE_SLABS, surchargeLoop, leLimit,
      decide_eq_true_eq]
    rw [if_pos h]
    ring
  · simp only [calculate_surcharge, SURCHARGE_SLABS, surchargeLoop, leLimit,
      decide_eq_true_eq]
    split_ifs <;> simp

/-- Witness for C3 at tax 100000, taxable income 4000000 (≤ 5000000). -/
theorem C3_surcharge_cess_layering_witness :
    (4000000 : ℚ) ≤ 5000000 ∧ calculate_surcharge 100000 4000000 = 0 :=
  ⟨by norm_num,
    (C3_surcharge_cess_layering 100000 4000000 0
      ⟨0, 0, 0, 0, 0, 0, 0, 0, 0, 0, 0⟩).1 (by norm_num)⟩

/-! ## Claim C8: regime comparison -/

/-- C8: `calculate_tax_liability` has `better_regime = "old"` exactly when
the old regime's total tax is at most the new regime's (ties go to old),
`tax_savings` is the absolute difference of the two totals, the new
regime's taxable income is `max 0 (gross - 50000)` and the old regime's is
`max 0 (gross - sum of all deduction entries)`. -/
theorem C8_regime_comparison (g : ℚ) (d : DeductionDict) :
    ((calculate_tax_liability g d).better_regime = "old" ↔
      (calculate_tax_liability g d).old_regime.total_tax ≤
        (calculate_tax_liability g d).new_regime.total_tax) ∧
    (calculate_tax_liability g d).tax_savings =
      |(calculate_tax_liability g d).old_regime.total_tax -
        (calculate_tax_liability g d).new_regime.total_tax| ∧
    (calculate_tax_liability g d).new_regime.taxable_income = max 0 (g - 50000) ∧
    (calculate_tax_liability g d).old_regime.taxable_income =
      max 0 (g - d.total) := by
  refine ⟨?_, rfl, rfl, rfl⟩
  have hb : (calculate_tax_liability g d).better_regime =
      (if (calculate_tax_liability g d).old_regime.total_tax ≤
          (calculate_tax_liability g d).new_regime.total_tax
        then "old" else "new") := rfl
  rw [hb]
  split_ifs with h
  · simp [h]
  · simp only [h, iff_false]
    intro hc
    exact absurd hc (by decide)

/-! ## Claim C9: savings rate guard and clamp -/

/-- C9: `calculate_savings_rate` returns 0 when the monthly income is 0
(the division is guarded), and its result is never negative (the rate is
clamped with `max 0`). -/
theorem C9_savings_rate_guarded (income expenses : ℚ) :
    calculate_savings_rate 0 expenses = 0 ∧
    0 ≤ calculate_savings_rate income expenses := by
  constructor
  · simp [calculate_savings_rate]
  · unfold calculate_savings_rate
    split
    · exact le_refl 0
    · exact le_max_left 0 _

/-! ## Claims C7 and C10: loan amortization and SIP returns -/

lemma amortLoop_length (m emi P : ℚ) :
    ∀ k : ℕ, (amortLoop m emi P k).1.length = k := by
  intro k
  induction k with
  | zero => rfl
  | succ n ih => simp [amortLoop, ih]

lemma amortLoop_payment_split (m emi P : ℚ) :
    ∀ k : ℕ, ∀ e ∈ (amortLoop m emi P k).1,
      e.principal_payment + e.interest_payment = emi := by
  intro k
  induction k with
  | zero => intro e he; simp [amortLoop] at he
  | succ n ih =>
    intro e he
    simp only [amortLoop, List.mem_append, List.mem_singleton] at he
    rcases he with he | he
    · exact ih e he
    · subst he; simp

lemma amortLoop_rem_zero_rate (emi P : ℚ) :
    ∀ k : ℕ, (amortLoop 0 emi P k).2 = P - k * emi := by
  intro k
  induction k with
  | zero => simp [amortLoop]
  | succ n ih =>
    simp only [amortLoop, ih]
    push_cast
    ring

lemma amortLoop_rem_closed (m emi P : ℚ) (hm : m ≠ 0) :
    ∀ k : ℕ, (amortLoop m emi P k).2 = (P - emi / m) * (1 + m) ^ k + emi / m := by
  intro k
  induction k with
  | zero => simp [amortLoop]
  | succ n ih =>
    simp only [amortLoop, ih]
    field_simp
    ring

lemma monthly_rate_eq_zero (rate : ℚ) : rate / (12 * 100) = 0 ↔ rate = 0 := by
  rw [div_eq_zero_iff]
  norm_num

lemma amort_zero_rate (P : ℚ) (n : ℕ) (hn : 0 < n) :
    calculate_loan_amortization P 0 n =
      some ⟨P, 0, n, P / n, P / n * n, P / n * n - P,
        (amortLoop ((0 : ℚ) / (12 * 100)) (P / n) P n).1⟩ := by
  simp only [calculate_loan_amortization]
  rw [if_pos (by norm_num : (0 : ℚ) / (12 * 100) = 0), if_neg hn.ne']
  rfl

lemma amort_pos_rate (P rate : ℚ) (n : ℕ) (hrate : 0 < rate) (hn : 0 < n) :
    (1 + rate / (12 * 100)) ^ n - 1 ≠ 0 ∧
    calculate_loan_amortization P rate n =
      some ⟨P, rate, n,
        P * (rate / (12 * 100)) * (1 + rate / (12 * 100)) ^ n /
          ((1 + rate / (12 * 100)) ^ n - 1),
        P * (rate / (12 * 100)) * (1 + rate / (12 * 100)) ^ n /
          ((1 + rate / (12 * 100)) ^ n - 1) * n,
        P * (rate / (12 * 100)) * (1 + rate / (12 * 100)) ^ n /
          ((1 + rate / (12 * 100)) ^ n - 1) * n - P,
        (amortLoop (rate / (12 * 100))
          (P * (rate / (12 * 100)) * (1 + rate / (12 * 100)) ^ n /
            ((1 + rate / (12 * 100)) ^ n - 1)) P n).1⟩ := by
  have hm : 0 < rate / (12 * 100) := by positivity
  have hq1 : 1 < (1 + rate / (12 * 100)) ^ n :=
    one_lt_pow₀ (by linarith) hn.ne'
  have hq : (1 + rate / (12 * 100)) ^ n - 1 ≠ 0 := sub_ne_zero.mpr hq1.ne'
  refine ⟨hq, ?_⟩
  simp only [calculate_loan_amortization, if_neg hm.ne', if_neg hq,
    Option.map_some']

/-- C7: for positive principal, non-negative rate and positive tenure,
`calculate_loan_amortization` succeeds and returns a schedule of exactly
`tenure_months` rows, each row's principal payment plus interest payment
equals the EMI, the total payment is EMI times the tenure, the exact
remaining principal after the final month is 0, and for rate 0 the EMI is
`principal / tenure_months`. -/
theorem C7_amortization_exact (principal rate : ℚ) (n : ℕ)
    (_hP : 0 < principal) (hr : 0 ≤ rate) (hn : 0 < n) :
    ∃ res : LoanResult,
      calculate_loan_amortization principal rate n = some res ∧
      res.amortization_schedule.length = n ∧
      (∀ e ∈ res.amortization_schedule,
        e.principal_payment + e.interest_payment = res.emi) ∧
      res.total_payment = res.emi * n ∧
      (amortLoop (rate / (12 * 100)) res.emi principal n).2 = 0 ∧
      (rate = 0 → res.emi = principal / n) := by
  rcases eq_or_lt_of_le hr with h0 | hpos
  · have h0 : rate = 0 := h0.symm
    subst h0
    refine ⟨_, amort_zero_rate principal n hn, ?_, ?_, rfl, ?_, fun _ => rfl⟩
    · exact amortLoop_length _ _ _ n
    · exact amortLoop_payment_split _ _ _ n
    · rw [zero_div, amortLoop_rem_zero_rate]
      have hn' : (n : ℚ) ≠ 0 := Nat.cast_ne_zero.mpr hn.ne'
      field_simp
  · obtain ⟨hq, heq⟩ := amort_pos_rate principal rate n hpos hn
    refine ⟨_, heq, ?_, ?_, rfl, ?_, ?_⟩
    · exact amortLoop_length _ _ _ n
    · exact amortLoop_payment_split _ _ _ n
    · have hm : rate / (12 * 100) ≠ 0 := by positivity
      rw [amortLoop_rem_closed _ _ _ hm]
      set m := rate / (12 * 100) with hmdef
      set q := (1 + m) ^ n with hqdef
      field_simp
      ring
    · intro h
      exact absurd h hpos.ne'

/-- Witness for C7 at principal 1200, rate 0, tenure 12 months. -/
theorem C7_amortization_exact_witness :
    (0 : ℚ) < 1200 ∧ (0 : ℚ) ≤ 0 ∧ 0 < 12 ∧
    (∃ res : LoanResult,
      calculate_loan_amortization 1200 0 12 = some res ∧
      res.amortization_schedule.length = 12 ∧
      (∀ e ∈ res.amortization_schedule,
        e.principal_payment + e.interest_payment = res.emi) ∧
      res.total_payment = res.emi * 12 ∧
      (amortLoop ((0 : ℚ) / (12 * 100)) res.emi 1200 12).2 = 0 ∧
      ((0 : ℚ) = 0 → res.emi = 1200 / 12)) :=
  ⟨by norm_num, le_refl 0, by norm_num,
    C7_amortization_exact 1200 0 12 (by norm_num) (le_refl 0) (by norm_num)⟩

/-- C10 counterexample: `calculate_loan_amortization` is not total for
every annual rate — at rate −2400 and tenure 2 the EMI denominator
`(1 + monthly_rate) ^ tenure - 1` is `(1 - 2)^2 - 1 = 0`, a
`ZeroDivisionError`. -/
theorem C10_amortization_negative_rate_counterexample :
    calculate_loan_amortization 100000 (-2400) 2 = none := by
  norm_num [calculate_loan_amortization]

/-- C10 (amended): `calculate_loan_amortization` is total for every
non-negative annual rate including 0 (given a positive tenure; its
zero-monthly-rate branch yields EMI = principal / tenure_months), whereas
`calculate_sip_returns` divides by the monthly rate unguarded: with
expected return rate 0 it fails with a `ZeroDivisionError`, and under the
precondition `expected_return_rate ≠ 0` that division succeeds. -/
theorem C10_zero_rate_guard_asymmetry :
    (∀ (P rate : ℚ) (n : ℕ), 0 ≤ rate → 0 < n →
      (calculate_loan_amortization P rate n).isSome) ∧
    (∀ (P : ℚ) (n : ℕ), 0 < n →
      ∃ res : LoanResult, calculate_loan_amortization P 0 n = some res ∧
        res.emi = P / n) ∧
    (∀ (inv : ℚ) (y : ℕ), calculate_sip_returns inv 0 y = none) ∧
    (∀ (inv rate : ℚ) (m : ℕ), rate ≠ 0 →
      (sipFutureValue inv (rate / (12 * 100)) m).isSome) := by
  refine ⟨?_, ?_, ?_, ?_⟩
  · intro P rate n hr hn
    rcases eq_or_lt_of_le hr with h0 | hpos
    · have h0 : rate = 0 := h0.symm
      subst h0
      rw [amort_zero_rate P n hn]
      rfl
    · rw [(amort_pos_rate P rate n hpos hn).2]
      rfl
  · intro P n hn
    exact ⟨_, amort_zero_rate P n hn, rfl⟩
  · intro inv y
    simp [calculate_sip_returns, sipFutureValue]
  · intro inv rate m hrate
    have hm : rate / (12 * 100) ≠ 0 := by
      rw [ne_eq, monthly_rate_eq_zero]
      exact hrate
    simp [sipFutureValue, hm]

/-- Witness for C10 at rate 12, tenure 12, and SIP rate 12. -/
theorem C10_zero_rate_guard_asymmetry_witness :
    (0 : ℚ) ≤ 12 ∧ 0 < 12 ∧
    (calculate_loan_amortization 100000 12 12).isSome ∧
    (12 : ℚ) ≠ 0 ∧ (sipFutureValue 1000 ((12 : ℚ) / (12 * 100)) 24).isSome :=
  ⟨by norm_num, by norm_num,
    C10_zero_rate_guard_asymmetry.1 100000 12 12 (by norm_num) (by norm_num),
    by norm_num,
    C10_zero_rate_guard_asymmetry.2.2.2 1000 12 24 (by norm_num)⟩

/-! ## Claim C6: anomaly detection flags only unusual months -/

/-- C6: every entry returned by `detect_spending_anomalies` comes from a
category with at least 3 distinct months of expenses in the window, records
the current month and its total, the category's variance is positive and
the total exceeds the mean by more than 2 population standard deviations
(exactly: `0 < amount - average` and `2^2 * variance < (amount - average)^2`),
and the severity is `"high"` exactly when the z-score exceeds 3 (exactly:
`3^2 * variance < (amount - average)^2`) and `"medium"` otherwise. -/
theorem C6_anomalies_are_unusual (rows : List ExpenseRow)
    (current_month : String) (a : Anomaly)
    (ha : a ∈ detect_spending_anomalies rows current_month) :
    3 ≤ (monthsOf rows a.category).length ∧
    a.month = current_month ∧
    a.amount = monthTotal rows a.category current_month ∧
    a.average = categoryAvg rows a.category ∧
    0 < categoryVar rows a.category ∧
    0 < a.amount - a.average ∧
    2 ^ 2 * categoryVar rows a.category < (a.amount - a.average) ^ 2 ∧
    (a.severity = "high" ↔
      3 ^ 2 * categoryVar rows a.category < (a.amount - a.average) ^ 2) ∧
    (a.severity = "medium" ↔
      ¬ 3 ^ 2 * categoryVar rows a.category < (a.amount - a.average) ^ 2) := by
  simp only [detect_spending_anomalies] at ha
  rw [List.mem_filterMap] at ha
  obtain ⟨cat, _hcat, hf⟩ := ha
  split at hf
  · exact Option.noConfusion hf
  · split at hf
    · split at hf
      · rw [Option.some.injEq] at hf
        subst hf
        rename_i hlen _hcm h2
        obtain ⟨hv, hpos, hlt⟩ := h2
        refine ⟨Nat.not_lt.mp hlen, rfl, rfl, rfl, hv, hpos, hlt, ?_, ?_⟩
        · show (if zScoreGT (monthTotal rows cat current_month)
              (categoryAvg rows cat) (categoryVar rows cat) 3
              then "high" else "medium") = "high" ↔ _
          split_ifs with h3
          · exact ⟨fun _ => h3.2.2, fun _ => rfl⟩
          · refine ⟨fun h => absurd h (by decide), fun h9 => absurd ⟨hv, hpos, h9⟩ h3⟩
        · show (if zScoreGT (monthTotal rows cat current_month)
              (categoryAvg rows cat) (categoryVar rows cat) 3
              then "high" else "medium") = "medium" ↔ _
          split_ifs with h3
          · exact ⟨fun h => absurd h (by decide), fun h9 => absurd h3.2.2 h9⟩
          · exact ⟨fun _ h9 => h3 ⟨hv, hpos, h9⟩, fun _ => rfl⟩
      · exact Option.noConfusion hf
    · exact Option.noConfusion hf

lemma monthTotal_of_filter (rows : List ExpenseRow) (cat mo : String)
    (r : ExpenseRow)
    (h : rows.filter (fun x => x.category = cat ∧ x.month_year = mo) = [r]) :
    monthTotal rows cat mo = r.amount := by
  rw [monthTotal, h]
  simp

lemma sample_monthTotal_100 (mo : String)
    (h : sampleExpenses.filter
      (fun x => x.category = "Food" ∧ x.month_year = mo) = [⟨"Food", mo, 100⟩]) :
    monthTotal sampleExpenses "Food" mo = 100 :=
  monthTotal_of_filter _ _ _ _ h

lemma sample_values :
    categoryValues sampleExpenses "Food" = [100, 100, 100, 100, 100, 400] := by
  have hmonths : monthsOf sampleExpenses "Food" =
      ["2025-01", "2025-02", "2025-03", "2025-04", "2025-05", "2025-06"] := by
    decide
  rw [categoryValues, hmonths]
  rw [List.map_cons, List.map_cons, List.map_cons, List.map_cons,
    List.map_cons, List.map_cons, List.map_nil]
  rw [sample_monthTotal_100 _ (by decide), sample_monthTotal_100 _ (by decide),
    sample_monthTotal_100 _ (by decide), sample_monthTotal_100 _ (by decide),
    sample_monthTotal_100 _ (by decide),
    monthTotal_of_filter _ _ _ ⟨"Food", "2025-06", 400⟩ (by decide)]

lemma sample_current_total : monthTotal sampleExpenses "Food" "2025-06" = 400 :=
  monthTotal_of_filter _ _ _ ⟨"Food", "2025-06", 400⟩ (by decide)

lemma sample_avg : categoryAvg sampleExpenses "Food" = 150 := by
  rw [categoryAvg, sample_values]
  norm_num [List.sum_cons]

lemma sample_var : categoryVar sampleExpenses "Food" = 12500 := by
  rw [categoryVar, sample_values, sample_avg]
  norm_num [List.sum_cons]

/-- Witness for C6: category "Food" with five months at 100 and the current
month "2025-06" at 400 (mean 150, variance 12500, z-score 250/√12500 ≈ 2.24),
flagged with severity "medium". -/
theorem C6_anomalies_are_unusual_witness :
    (⟨"Food", "2025-06", 400, 150, (400 - 150) / 150 * 100, "medium"⟩ : Anomaly) ∈
      detect_spending_anomalies sampleExpenses "2025-06" ∧
    3 ≤ (monthsOf sampleExpenses
      (Anomaly.category ⟨"Food", "2025-06", 400, 150, (400 - 150) / 150 * 100,
        "medium"⟩)).length ∧
    0 < categoryVar sampleExpenses
      (Anomaly.category ⟨"Food", "2025-06", 400, 150, (400 - 150) / 150 * 100,
        "medium"⟩) := by
  have hc1 : ¬ (monthsOf sampleExpenses "Food").length < 3 := by decide
  have hc2 : "2025-06" ∈ monthsOf sampleExpenses "Food" := by decide
  have hc3 : zScoreGT (monthTotal sampleExpenses "Food" "2025-06")
      (categoryAvg sampleExpenses "Food") (categoryVar sampleExpenses "Food")
      2 := by
    rw [sample_current_total, sample_avg, sample_var]
    norm_num [zScoreGT]
  have hc4 : ¬ zScoreGT (monthTotal sampleExpenses "Food" "2025-06")
      (categoryAvg sampleExpenses "Food") (categoryVar sampleExpenses "Food")
      3 := by
    rw [sample_current_total, sample_avg, sample_var]
    norm_num [zScoreGT]
  have hmem : (⟨"Food", "2025-06", 400, 150, (400 - 150) / 150 * 100,
      "medium"⟩ : Anomaly) ∈
      detect_spending_anomalies sampleExpenses "2025-06" := by
    simp only [detect_spending_anomalies]
    rw [List.mem_filterMap]
    refine ⟨"Food", by decide, ?_⟩
    rw [if_neg hc1, if_pos hc2, if_pos hc3, if_neg hc4,
      sample_current_total, sample_avg]
  refine ⟨hmem, ?_, ?_⟩
  · exact (C6_anomalies_are_unusual sampleExpenses "2025-06" _ hmem).1
  · exact (C6_anomalies_are_unusual sampleExpenses "2025-06" _ hmem).2.2.2.2.1

end FinWise
